import Mathlib

/-!
Verification of the AwtFit Outfit Composition Engine (src/App.tsx).

The engine state and its handlers are embedded as pure Lean functions.
The asynchronous image-generation service (src/services/geminiService,
absent from src) is a parameter: an oracle of type
`String → String → Except String String` taking the base image and the
garment id (for try-on) or the pose instruction (for pose variation) and
returning the generated image or an error.  Each handler additionally
returns the list of generation calls it issued, as (base, argument)
pairs, so that claims about "no call made" / "which base was used" are
statable.
-/

/-- Modelled from the spec: a garment (WardrobeItem, src/types.ts is
absent from src).  Identity is the stable `id`; `name` and `url` are the
display name and source-image locator.  Optional brand/material/price
metadata is omitted: no engine operation reads it. -/
structure WardrobeItem where
  id : String
  name : String
  url : String
deriving Repr, DecidableEq

/-- One step of composition history: an optional garment (absent only
for the root layer) and the pose cache.  The pose cache is a JS object
keyed by pose-instruction string; it is embedded as an association list
in insertion order, so the first entry is the first-inserted
("representative") one, as in `Object.values(poseImages)[0]`. -/
structure OutfitLayer where
  garment : Option WardrobeItem
  poseImages : List (String × String)
deriving Repr, DecidableEq

/-- Modelled from the spec: a saved outfit (src/types.ts is absent from
src): a generated id, user-chosen name, ordered garment-id list
(excluding the root) and a preview image. -/
structure SavedOutfit where
  id : String
  name : String
  garmentIds : List String
  previewUrl : String
deriving Repr, DecidableEq

/-- The engine state: the React state fields of `App` that the history
stack, pose cache and replay pipeline read or write.  Presentation-only
fields (loading message, sheet collapse, tab, share modal, saved-outfit
index) are not modelled. -/
structure AppState where
  modelImageUrl : Option String
  outfitHistory : List OutfitLayer
  currentOutfitIndex : Nat
  isLoading : Bool
  currentPoseIndex : Nat
  wardrobe : List WardrobeItem
  error : Option String
deriving Repr, DecidableEq

/-- The default pose, `POSE_INSTRUCTIONS[0]`. -/
def POSE0 : String := "Full frontal view, hands on hips"

/-- The fixed pose enumeration from src/App.tsx. -/
def POSE_INSTRUCTIONS : List String :=
  [POSE0,
   "Slightly turned, 3/4 view",
   "Side profile view",
   "Jumping in the air, mid-action shot",
   "Walking towards camera",
   "Leaning against a wall"]

/-- The seed catalog from src/wardrobe.ts (`defaultWardrobe`). -/
def defaultWardrobe : List WardrobeItem :=
  [{ id := "gemini-sweat", name := "Gemini Sweat",
     url := "https://raw.githubusercontent.com/ammaarreshi/app-images/refs/heads/main/gemini-sweat-2.png" },
   { id := "gemini-tee", name := "Gemini Tee",
     url := "https://raw.githubusercontent.com/ammaarreshi/app-images/refs/heads/main/Gemini-tee.png" },
   { id := "google-cloud-jacket", name := "Cloud Jacket",
     url := "https://raw.githubusercontent.com/ammaarreshi/app-images/main/google-cloud-jacket.png" }]

/-- Modelled from the spec: `getFriendlyErrorMessage` (src/lib/utils is
absent from src).  The spec only requires that a failure is surfaced as
a single user-facing message; it is modelled as the fallback context
joined with the raw error. -/
def getFriendlyErrorMessage (err fallback : String) : String :=
  fallback ++ ": " ++ err

/-- The initial React state of `App`: no model image, empty history,
index 0, not loading, default pose, seed wardrobe, no error. -/
def initialState : AppState :=
  { modelImageUrl := none, outfitHistory := [], currentOutfitIndex := 0,
    isLoading := false, currentPoseIndex := 0, wardrobe := defaultWardrobe,
    error := none }

/-- `displayImageUrl` (src/App.tsx, the `useMemo` at lines 101-108):
the current layer's entry for the active pose, falling back to the
layer's first-inserted entry, or the raw model image when there is no
history / no current layer. -/
def displayImageUrl (s : AppState) : Option String :=
  if s.outfitHistory.length = 0 then s.modelImageUrl
  else
    match s.outfitHistory[s.currentOutfitIndex]? with
    | none => s.modelImageUrl
    | some currentLayer =>
      ((match POSE_INSTRUCTIONS[s.currentPoseIndex]? with
        | some p => List.lookup p currentLayer.poseImages
        | none => none) : Option String).orElse
        (fun _ => currentLayer.poseImages.head?.map (fun e => e.2))

/-- `handleModelFinalized` (src/App.tsx lines 116-123): install the
base image as a single root layer caching it under the default pose. -/
def handleModelFinalized (url : String) (s : AppState) : AppState :=
  { s with modelImageUrl := some url,
           outfitHistory := [{ garment := none, poseImages := [(POSE0, url)] }],
           currentOutfitIndex := 0 }

/-- The generation branch of `handleGarmentSelect` (src/App.tsx lines
151-176): one try-on call on the displayed image; on success truncate
the stack to the current position, append the new single-pose layer,
advance the position, reset the pose, register the garment in the
wardrobe if new; on failure only record the error. -/
def garmentGenerate (generateVirtualTryOnImage : String → String → Except String String)
    (s : AppState) (disp : String) (garmentInfo : WardrobeItem) :
    AppState × List (String × String) :=
  match generateVirtualTryOnImage disp garmentInfo.id with
  | Except.ok newImageUrl =>
    ({ s with
        error := none,
        outfitHistory :=
          s.outfitHistory.take (s.currentOutfitIndex + 1) ++
            [{ garment := some garmentInfo, poseImages := [(POSE0, newImageUrl)] }],
        currentOutfitIndex := s.currentOutfitIndex + 1,
        currentPoseIndex := 0,
        wardrobe :=
          if (s.wardrobe.find? (fun item => item.id == garmentInfo.id)).isSome
          then s.wardrobe else s.wardrobe ++ [garmentInfo] },
     [(disp, garmentInfo.id)])
  | Except.error e =>
    ({ s with error := some (getFriendlyErrorMessage e "Failed to apply garment") },
     [(disp, garmentInfo.id)])

/-- `handleGarmentSelect` (src/App.tsx lines 137-177): no-op without a
display image or while busy; redo hit when the next layer carries the
same garment id (advance, reset pose, no call); otherwise generate. -/
def handleGarmentSelect (generateVirtualTryOnImage : String → String → Except String String)
    (s : AppState) (garmentInfo : WardrobeItem) : AppState × List (String × String) :=
  match displayImageUrl s with
  | none => (s, [])
  | some disp =>
    if s.isLoading then (s, [])
    else
      match s.outfitHistory[s.currentOutfitIndex + 1]? with
      | some nextLayer =>
        if nextLayer.garment.map WardrobeItem.id = some garmentInfo.id then
          ({ s with currentOutfitIndex := s.currentOutfitIndex + 1,
                    currentPoseIndex := 0 }, [])
        else garmentGenerate generateVirtualTryOnImage s disp garmentInfo
      | none => garmentGenerate generateVirtualTryOnImage s disp garmentInfo

/-- `handleRemoveLastGarment` (src/App.tsx lines 179-184): move the
position back one and reset the pose when the position is positive;
silently a no-op at position 0.  Note: unlike the other mutating
handlers, it does not consult `isLoading`. -/
def handleRemoveLastGarment (s : AppState) : AppState :=
  if s.currentOutfitIndex > 0 then
    { s with currentOutfitIndex := s.currentOutfitIndex - 1, currentPoseIndex := 0 }
  else s

/-- `handlePoseSelect` (src/App.tsx lines 186-222): guard on busy /
empty history / same pose; cache hit switches the pointer with no call;
cache miss issues one pose-variation call on the layer's first-inserted
image, optimistically moving the pointer, appending the result to the
layer's cache on success and reverting the pointer on failure.  An
out-of-range pose index or missing current layer is modelled as leaving
the state unchanged (unreachable from the UI, which derives both from
the state). -/
def handlePoseSelect (generatePoseVariation : String → String → Except String String)
    (s : AppState) (newIndex : Nat) : AppState × List (String × String) :=
  if s.isLoading ∨ s.outfitHistory.length = 0 ∨ newIndex = s.currentPoseIndex then (s, [])
  else
    match POSE_INSTRUCTIONS[newIndex]? with
    | none => (s, [])
    | some p =>
      match s.outfitHistory[s.currentOutfitIndex]? with
      | none => (s, [])
      | some currentLayer =>
        if (List.lookup p currentLayer.poseImages).isSome then
          ({ s with currentPoseIndex := newIndex }, [])
        else
          match currentLayer.poseImages.head? with
          | none => (s, [])
          | some rep =>
            match generatePoseVariation rep.2 p with
            | Except.ok newImageUrl =>
              ({ s with
                  error := none,
                  currentPoseIndex := newIndex,
                  outfitHistory :=
                    s.outfitHistory.set s.currentOutfitIndex
                      { currentLayer with
                          poseImages := currentLayer.poseImages ++ [(p, newImageUrl)] } },
               [(rep.2, p)])
            | Except.error e =>
              ({ s with
                  error := some (getFriendlyErrorMessage e "Failed to change pose") },
               [(rep.2, p)])

/-- The loop of `applyGarmentSequence` (src/App.tsx lines 252-275),
recursing over the remaining garment ids with the running base image
and the layer list built so far.  An id the wardrobe cannot resolve is
skipped (the code's `if (garmentInfo)` has no else branch); a resolved
id issues one try-on call (`urlToFile` + `generateVirtualTryOnImage`
are folded into the one fallible oracle call), on success the layer is
appended and committed to the state, on failure the error is recorded
and the sequence stops. -/
def applyGarmentSeqAux (generateVirtualTryOnImage : String → String → Except String String)
    (w : List WardrobeItem) (s : AppState) (baseImage : String)
    (newLayers : List OutfitLayer) : List String → AppState × List (String × String)
  | [] => (s, [])
  | garmentId :: rest =>
    match w.find? (fun g => g.id == garmentId) with
    | none => applyGarmentSeqAux generateVirtualTryOnImage w s baseImage newLayers rest
    | some garmentInfo =>
      match generateVirtualTryOnImage baseImage garmentInfo.id with
      | Except.ok newImageUrl =>
        let newLayers' := newLayers ++
          [{ garment := some garmentInfo, poseImages := [(POSE0, newImageUrl)] }]
        let s' := { s with outfitHistory := newLayers',
                           currentOutfitIndex := newLayers'.length - 1 }
        let r := applyGarmentSeqAux generateVirtualTryOnImage w s' newImageUrl newLayers' rest
        (r.1, (baseImage, garmentInfo.id) :: r.2)
      | Except.error e =>
        ({ s with error := some (getFriendlyErrorMessage e
             ("Failed to apply " ++ garmentInfo.name)) },
         [(baseImage, garmentInfo.id)])

/-- `applyGarmentSequence` (src/App.tsx lines 243-276): take the base
image from the root layer's entry under the default pose (error out if
absent), seed the new layer list with the root layer, then run the
replay loop. -/
def applyGarmentSequence (generateVirtualTryOnImage : String → String → Except String String)
    (s : AppState) (garmentIds : List String) : AppState × List (String × String) :=
  match s.outfitHistory.head? with
  | none => ({ s with error := some "Base model image is not available." }, [])
  | some root =>
    match List.lookup POSE0 root.poseImages with
    | none => ({ s with error := some "Base model image is not available." }, [])
    | some baseImage =>
      applyGarmentSeqAux generateVirtualTryOnImage s.wardrobe s baseImage [root] garmentIds

/-- `handleApplySavedOutfit` (src/App.tsx lines 278-293): no-op while
busy; otherwise clear the error, set busy, reset position and pose to
0, run the replay sequence, clear busy. -/
def handleApplySavedOutfit (generateVirtualTryOnImage : String → String → Except String String)
    (s : AppState) (outfit : SavedOutfit) : AppState × List (String × String) :=
  if s.isLoading then (s, [])
  else
    let s1 := { s with error := none, isLoading := true,
                       currentOutfitIndex := 0, currentPoseIndex := 0 }
    let r := applyGarmentSequence generateVirtualTryOnImage s1 outfit.garmentIds
    ({ r.1 with isLoading := false }, r.2)

/-- A user action on the engine, for stating invariants over arbitrary
operation sequences. -/
inductive Op where
  | addGarment (g : WardrobeItem)
  | removeLast
  | selectPose (n : Nat)
  | applyOutfit (o : SavedOutfit)
deriving Repr, DecidableEq

/-- One step of the engine: dispatch an operation to its handler,
keeping only the state. -/
def step (genTryOn genPose : String → String → Except String String)
    (s : AppState) : Op → AppState
  | Op.addGarment g => (handleGarmentSelect genTryOn s g).1
  | Op.removeLast => handleRemoveLastGarment s
  | Op.selectPose n => (handlePoseSelect genPose s n).1
  | Op.applyOutfit o => (handleApplySavedOutfit genTryOn s o).1

/-- Run: initialize with the base image, then fold an operation list. -/
def run (genTryOn genPose : String → String → Except String String)
    (base : String) (s0 : AppState) (ops : List Op) : AppState :=
  ops.foldl (step genTryOn genPose) (handleModelFinalized base s0)

/-! ### Concrete material for witnesses and counterexamples -/

/-- An always-succeeding generation oracle. -/
def genConcat : String → String → Except String String :=
  fun b g => Except.ok (b ++ "|" ++ g)

/-- An always-failing generation oracle. -/
def genBoom : String → String → Except String String :=
  fun _ _ => Except.error "boom"

def itemA : WardrobeItem := { id := "a", name := "A", url := "uA" }

def itemB : WardrobeItem := { id := "b", name := "B", url := "uB" }

def rootLayerM0 : OutfitLayer := { garment := none, poseImages := [(POSE0, "M0")] }

/-- A state holding only the root layer, with two known garments. -/
def sRootOnly : AppState :=
  { modelImageUrl := some "M0", outfitHistory := [rootLayerM0],
    currentOutfitIndex := 0, isLoading := false, currentPoseIndex := 0,
    wardrobe := [itemA, itemB], error := none }

/-- A busy state with one garment layer above the root. -/
def sBusyOne : AppState :=
  { modelImageUrl := some "M0",
    outfitHistory := [rootLayerM0,
                      { garment := some itemA, poseImages := [(POSE0, "M1")] }],
    currentOutfitIndex := 1, isLoading := true, currentPoseIndex := 0,
    wardrobe := [itemA, itemB], error := none }

/-- Whether the first generation call the replay loop will issue
succeeds: ids are scanned in order, unresolved ones are skipped, and
the first resolvable id determines the answer.  Because the loop stops
on the first failure, this is equivalent to "at least one generation
step succeeds". -/
def firstCallOk (genT : String → String → Except String String)
    (w : List WardrobeItem) (base : String) : List String → Bool
  | [] => false
  | i :: rest =>
    match w.find? (fun g => g.id == i) with
    | none => firstCallOk genT w base rest
    | some g =>
      match genT base g.id with
      | Except.ok _ => true
      | Except.error _ => false

/-- `firstCallOk` lifted to a state: false when there is no root layer
or the root lacks the default-pose entry (the replay errors out before
any call). -/
def replayFirstCallOk (genT : String → String → Except String String)
    (s : AppState) (ids : List String) : Bool :=
  match s.outfitHistory.head? with
  | none => false
  | some root =>
    match List.lookup POSE0 root.poseImages with
    | none => false
    | some base => firstCallOk genT s.wardrobe base ids

/-- The root-layer invariant: the history starts with a garment-free
layer whose pose cache has the default pose mapped to the base image as
its first-inserted entry. -/
def RootOK (base : String) (s : AppState) : Prop :=
  ∃ l rest, s.outfitHistory.head? = some l ∧ l.garment = none ∧
    l.poseImages = (POSE0, base) :: rest

/-- A non-busy state undone to the root with garment layer "a" left in
the redo buffer. -/
def sRedo : AppState :=
  { modelImageUrl := some "M0",
    outfitHistory := [rootLayerM0,
                      { garment := some itemA, poseImages := [(POSE0, "M1")] }],
    currentOutfitIndex := 0, isLoading := false, currentPoseIndex := 0,
    wardrobe := [itemA, itemB], error := none }

/-- A saved outfit referencing garment "a" only. -/
def oA : SavedOutfit :=
  { id := "o1", name := "Look A", garmentIds := ["a"], previewUrl := "p1" }

/-- A saved outfit referencing garments "a" then "b". -/
def oAB : SavedOutfit :=
  { id := "o2", name := "Look AB", garmentIds := ["a", "b"], previewUrl := "p2" }

/-! ### Claim C2: busy-flag gating -/

/-- C2 counterexample: while the busy flag is set, `RemoveLastGarment`
is not a no-op — at position 1 of `sBusyOne` it moves the position to 0
even though `isLoading` is true. -/
theorem removeLast_busy_mutates_cex :
    sBusyOne.isLoading = true ∧ sBusyOne.currentOutfitIndex = 1 ∧
    (handleRemoveLastGarment sBusyOne).currentOutfitIndex = 0 := by
  decide

/-- C2 (amended): AddGarment, SelectPose and ApplySavedOutfit invoked
while the busy flag is set are no-ops (state unchanged, no generation
call); RemoveLastGarment is not gated by the busy flag and still
decrements the position and resets the pose whenever the position is
positive. -/
theorem busy_gates_all_but_removeLast
    (genT genP : String → String → Except String String)
    (s : AppState) (g : WardrobeItem) (n : Nat) (o : SavedOutfit)
    (h : s.isLoading = true) :
    handleGarmentSelect genT s g = (s, []) ∧
    handlePoseSelect genP s n = (s, []) ∧
    handleApplySavedOutfit genT s o = (s, []) ∧
    (0 < s.currentOutfitIndex →
      handleRemoveLastGarment s =
        { s with currentOutfitIndex := s.currentOutfitIndex - 1,
                 currentPoseIndex := 0 }) := by
  refine ⟨?_, ?_, ?_, ?_⟩
  · unfold handleGarmentSelect
    cases displayImageUrl s <;> simp [h]
  · unfold handlePoseSelect
    simp [h]
  · unfold handleApplySavedOutfit
    simp [h]
  · intro hpos
    unfold handleRemoveLastGarment
    simp [hpos]

/-- Witness for the C2 amended theorem at the concrete busy state. -/
theorem busy_gates_all_but_removeLast_witness :
    handleGarmentSelect genConcat sBusyOne itemB = (sBusyOne, []) ∧
    handlePoseSelect genConcat sBusyOne 1 = (sBusyOne, []) ∧
    handleApplySavedOutfit genConcat sBusyOne
      { id := "o", name := "O", garmentIds := ["a"], previewUrl := "p" } =
      (sBusyOne, []) ∧
    (0 < sBusyOne.currentOutfitIndex →
      handleRemoveLastGarment sBusyOne =
        { sBusyOne with currentOutfitIndex := sBusyOne.currentOutfitIndex - 1,
                        currentPoseIndex := 0 }) :=
  busy_gates_all_but_removeLast genConcat genConcat sBusyOne itemB 1
    { id := "o", name := "O", garmentIds := ["a"], previewUrl := "p" } (by decide)

/-! ### Claim C4: generation failure leaves the stack unchanged -/

/-- C4: with the history of length `n` at position `n-1`, an AddGarment
whose generation request fails leaves the history length equal to `n`
and the position equal to `n-1`: no layer is appended and the position
does not advance. -/
theorem addGarment_failure_preserves_stack
    (genT : String → String → Except String String)
    (s : AppState) (g : WardrobeItem)
    (hpos : s.currentOutfitIndex + 1 = s.outfitHistory.length)
    (hfail : ∀ b gid, ∃ m, genT b gid = Except.error m) :
    (handleGarmentSelect genT s g).1.outfitHistory.length =
      s.outfitHistory.length ∧
    (handleGarmentSelect genT s g).1.currentOutfitIndex =
      s.currentOutfitIndex := by
  unfold handleGarmentSelect
  cases hd : displayImageUrl s with
  | none => exact ⟨rfl, rfl⟩
  | some disp =>
    cases hl : s.isLoading with
    | true => simp
    | false =>
      have hnone : s.outfitHistory[s.currentOutfitIndex + 1]? = none := by
        rw [List.getElem?_eq_none_iff]
        omega
      rw [hnone]
      obtain ⟨m, hm⟩ := hfail disp g.id
      simp [garmentGenerate, hm]

/-- Witness for C4 at a concrete one-layer state with a failing oracle. -/
theorem addGarment_failure_preserves_stack_witness :
    (handleGarmentSelect genBoom sRootOnly itemA).1.outfitHistory.length =
      sRootOnly.outfitHistory.length ∧
    (handleGarmentSelect genBoom sRootOnly itemA).1.currentOutfitIndex =
      sRootOnly.currentOutfitIndex :=
  addGarment_failure_preserves_stack genBoom sRootOnly itemA (by decide)
    (fun _ _ => ⟨"boom", rfl⟩)

/-! ### Claims C8 and C9: SelectPose -/

/-- C8: an effective SelectPose call (not busy, history nonempty, a
different pose, valid pose id, current layer present) with a cache hit
issues zero generation calls and just moves the active pose pointer; a
cache miss issues exactly one call whose base is the current layer's
first-inserted (representative) cache entry. -/
theorem selectPose_hit_and_miss_base
    (genP : String → String → Except String String)
    (s : AppState) (newIndex : Nat) (p : String) (currentLayer : OutfitLayer)
    (hbusy : s.isLoading = false)
    (hne : s.outfitHistory.length ≠ 0)
    (hdiff : newIndex ≠ s.currentPoseIndex)
    (hp : POSE_INSTRUCTIONS[newIndex]? = some p)
    (hlayer : s.outfitHistory[s.currentOutfitIndex]? = some currentLayer) :
    ((List.lookup p currentLayer.poseImages).isSome = true →
      handlePoseSelect genP s newIndex =
        ({ s with currentPoseIndex := newIndex }, [])) ∧
    (List.lookup p currentLayer.poseImages = none →
      ∀ rep, currentLayer.poseImages.head? = some rep →
        (handlePoseSelect genP s newIndex).2 = [(rep.2, p)]) := by
  have hguard :
      ¬ (s.isLoading = true ∨ s.outfitHistory.length = 0 ∨
          newIndex = s.currentPoseIndex) := by
    simp [hbusy, hne, hdiff]
  constructor
  · intro hhit
    unfold handlePoseSelect
    rw [if_neg hguard]
    simp only [hp, hlayer, hhit, if_true]
  · intro hmiss rep hrep
    unfold handlePoseSelect
    rw [if_neg hguard]
    simp only [hp, hlayer, hmiss, hrep, Option.isSome_none,
      Bool.false_eq_true, if_false]
    cases genP rep.2 p <;> rfl

/-- Witness for C8: in `sRootOnly` selecting pose 1 is a cache miss
whose single call uses the root's representative image "M0". -/
theorem selectPose_hit_and_miss_base_witness :
    (handlePoseSelect genConcat sRootOnly 1).2 =
      [("M0", "Slightly turned, 3/4 view")] := by
  have h := selectPose_hit_and_miss_base genConcat sRootOnly 1
    "Slightly turned, 3/4 view" rootLayerM0 rfl (by decide) (by decide)
    (by decide) (by decide)
  exact h.2 (by decide) (POSE0, "M0") (by decide)

/-- C9: an effective SelectPose cache miss whose generation call fails
leaves the active pose pointer at its prior value (the optimistic move
is reverted), leaves the history — hence the layer's pose cache —
unchanged, and surfaces the error. -/
theorem selectPose_failure_reverts
    (genP : String → String → Except String String)
    (s : AppState) (newIndex : Nat) (p : String) (currentLayer : OutfitLayer)
    (rep : String × String) (msg : String)
    (hbusy : s.isLoading = false)
    (hne : s.outfitHistory.length ≠ 0)
    (hdiff : newIndex ≠ s.currentPoseIndex)
    (hp : POSE_INSTRUCTIONS[newIndex]? = some p)
    (hlayer : s.outfitHistory[s.currentOutfitIndex]? = some currentLayer)
    (hmiss : List.lookup p currentLayer.poseImages = none)
    (hrep : currentLayer.poseImages.head? = some rep)
    (hfail : genP rep.2 p = Except.error msg) :
    (handlePoseSelect genP s newIndex).1.currentPoseIndex =
      s.currentPoseIndex ∧
    (handlePoseSelect genP s newIndex).1.outfitHistory = s.outfitHistory ∧
    (handlePoseSelect genP s newIndex).1.error =
      some (getFriendlyErrorMessage msg "Failed to change pose") := by
  have hguard :
      ¬ (s.isLoading = true ∨ s.outfitHistory.length = 0 ∨
          newIndex = s.currentPoseIndex) := by
    simp [hbusy, hne, hdiff]
  unfold handlePoseSelect
  rw [if_neg hguard]
  simp only [hp, hlayer, hmiss, hrep, Option.isSome_none,
    Bool.false_eq_true, if_false, hfail]
  simp

/-- Witness for C9: the failing pose call on `sRootOnly` reverts the
pointer and leaves the cache alone. -/
theorem selectPose_failure_reverts_witness :
    (handlePoseSelect genBoom sRootOnly 1).1.currentPoseIndex =
      sRootOnly.currentPoseIndex ∧
    (handlePoseSelect genBoom sRootOnly 1).1.outfitHistory =
      sRootOnly.outfitHistory ∧
    (handlePoseSelect genBoom sRootOnly 1).1.error =
      some (getFriendlyErrorMessage "boom" "Failed to change pose") :=
  selectPose_failure_reverts genBoom sRootOnly 1
    "Slightly turned, 3/4 view" rootLayerM0 (POSE0, "M0") "boom"
    rfl (by decide) (by decide) (by decide) (by decide) (by decide)
    (by decide) rfl

/-! ### Claim C1: unresolved garment ids during replay -/

/-- C1 counterexample: replaying ["zz", "a"] over `sRootOnly` — where
"zz" does not resolve in the wardrobe but "a" does — does not abort:
the later id "a" is still processed (one call, a second layer is
built) and no error is recorded, contradicting "the whole replay
sequence is aborted with an error (no further ids are processed)". -/
theorem replay_unresolved_not_aborting_cex :
    ((sRootOnly.wardrobe.find? (fun g => g.id == "zz")).isSome = false) ∧
    (applyGarmentSequence genConcat sRootOnly ["zz", "a"]).2 = [("M0", "a")] ∧
    (applyGarmentSequence genConcat sRootOnly ["zz", "a"]).1.outfitHistory.length = 2 ∧
    (applyGarmentSequence genConcat sRootOnly ["zz", "a"]).1.error = none := by
  decide

/-- The replay loop treats an id the wardrobe cannot resolve exactly as
if it were absent from the list. -/
theorem applyGarmentSeqAux_filter_unresolved
    (genT : String → String → Except String String)
    (w : List WardrobeItem) (ids : List String) :
    ∀ (s : AppState) (baseImage : String) (newLayers : List OutfitLayer),
    applyGarmentSeqAux genT w s baseImage newLayers
        (ids.filter (fun i => (w.find? (fun g => g.id == i)).isSome)) =
      applyGarmentSeqAux genT w s baseImage newLayers ids := by
  induction ids with
  | nil => intro s b l; rfl
  | cons i rest ih =>
    intro s b l
    rw [List.filter_cons]
    cases hfind : w.find? (fun g => g.id == i) with
    | none =>
      simp only [hfind, Option.isSome_none, Bool.false_eq_true, if_false,
        applyGarmentSeqAux]
      exact ih s b l
    | some garmentInfo =>
      simp only [hfind, Option.isSome_some, if_true, applyGarmentSeqAux]
      cases hgen : genT b garmentInfo.id with
      | ok newImageUrl => simp only [hgen, ih]
      | error e => simp only [hgen]

/-- C1 (amended): a garment id the Garment Registry cannot resolve is
silently skipped — the replay sequence is not aborted, no error is
recorded for it, and the remaining ids are processed exactly as if the
unresolved ids were absent from the stored list; only a generation
failure aborts the remainder, and layers built so far remain. -/
theorem applyGarmentSequence_skips_unresolved
    (genT : String → String → Except String String)
    (s : AppState) (ids : List String) :
    applyGarmentSequence genT s
        (ids.filter (fun i => (s.wardrobe.find? (fun g => g.id == i)).isSome)) =
      applyGarmentSequence genT s ids := by
  unfold applyGarmentSequence
  split
  · rfl
  · split
    · rfl
    · apply applyGarmentSeqAux_filter_unresolved

/-! ### Replay-loop structure lemmas (shared by the root-invariant and history-replacement claims) -/

theorem applyGarmentSeqAux_history
    (genT : String → String → Except String String)
    (w : List WardrobeItem) (ids : List String) :
    ∀ (s : AppState) (b : String) (layers : List OutfitLayer),
    ((applyGarmentSeqAux genT w s b layers ids).1.outfitHistory = s.outfitHistory ∧
     (applyGarmentSeqAux genT w s b layers ids).1.currentOutfitIndex = s.currentOutfitIndex) ∨
    (∃ built, built ≠ [] ∧
      (applyGarmentSeqAux genT w s b layers ids).1.outfitHistory = layers ++ built ∧
      (applyGarmentSeqAux genT w s b layers ids).1.currentOutfitIndex =
        (layers ++ built).length - 1 ∧
      ∀ l ∈ built, l.garment.isSome ∧ l.poseImages.length = 1) := by
  induction ids with
  | nil => intro s b layers; exact Or.inl ⟨rfl, rfl⟩
  | cons i rest ih =>
    intro s b layers
    cases hfind : w.find? (fun g => g.id == i) with
    | none =>
      simp only [applyGarmentSeqAux, hfind]
      exact ih s b layers
    | some gi =>
      simp only [applyGarmentSeqAux, hfind]
      cases hgen : genT b gi.id with
      | error e => simp only [hgen]; exact Or.inl ⟨by trivial, by trivial⟩
      | ok u =>
        simp only [hgen]
        rcases ih ({ s with
            outfitHistory := layers ++ [{ garment := some gi, poseImages := [(POSE0, u)] }],
            currentOutfitIndex :=
              (layers ++ [({ garment := some gi, poseImages := [(POSE0, u)] } : OutfitLayer)]).length - 1 } : AppState)
            u (layers ++ [{ garment := some gi, poseImages := [(POSE0, u)] }])
          with ⟨h1, h2⟩ | ⟨built, hb, h1, h2, h3⟩
        · refine Or.inr ⟨[{ garment := some gi, poseImages := [(POSE0, u)] }],
            by simp, by rw [h1], by rw [h2], ?_⟩
          intro l hl
          simp only [List.mem_singleton] at hl
          subst hl
          simp
        · refine Or.inr ⟨[{ garment := some gi, poseImages := [(POSE0, u)] }] ++ built,
            by simp, by rw [h1, List.append_assoc], by rw [h2, List.append_assoc], ?_⟩
          intro l hl
          rcases List.mem_append.1 hl with hl | hl
          · simp only [List.mem_singleton] at hl
            subst hl
            simp
          · exact h3 l hl

theorem applyGarmentSeqAux_noSuccess
    (genT : String → String → Except String String)
    (w : List WardrobeItem) (ids : List String) :
    ∀ (s : AppState) (b : String) (layers : List OutfitLayer),
    firstCallOk genT w b ids = false →
    (applyGarmentSeqAux genT w s b layers ids).1.outfitHistory = s.outfitHistory ∧
    (applyGarmentSeqAux genT w s b layers ids).1.currentOutfitIndex =
      s.currentOutfitIndex := by
  induction ids with
  | nil => intro s b layers _; exact ⟨rfl, rfl⟩
  | cons i rest ih =>
    intro s b layers h
    cases hfind : w.find? (fun g => g.id == i) with
    | none =>
      simp only [firstCallOk, hfind] at h
      simp only [applyGarmentSeqAux, hfind]
      exact ih s b layers h
    | some gi =>
      simp only [firstCallOk, hfind] at h
      simp only [applyGarmentSeqAux, hfind]
      cases hgen : genT b gi.id with
      | ok u => rw [hgen] at h; exact absurd h (by simp)
      | error e => simp only [hgen]; exact ⟨by trivial, by trivial⟩

theorem applyGarmentSeqAux_firstSuccess
    (genT : String → String → Except String String)
    (w : List WardrobeItem) (ids : List String) :
    ∀ (s : AppState) (b : String) (layers : List OutfitLayer),
    firstCallOk genT w b ids = true →
    ∃ built, built ≠ [] ∧
      (applyGarmentSeqAux genT w s b layers ids).1.outfitHistory = layers ++ built ∧
      (applyGarmentSeqAux genT w s b layers ids).1.currentOutfitIndex =
        (layers ++ built).length - 1 ∧
      ∀ l ∈ built, l.garment.isSome ∧ l.poseImages.length = 1 := by
  induction ids with
  | nil => intro s b layers h; exact absurd h (by simp [firstCallOk])
  | cons i rest ih =>
    intro s b layers h
    cases hfind : w.find? (fun g => g.id == i) with
    | none =>
      simp only [firstCallOk, hfind] at h
      simp only [applyGarmentSeqAux, hfind]
      exact ih s b layers h
    | some gi =>
      simp only [applyGarmentSeqAux, hfind]
      cases hgen : genT b gi.id with
      | error e =>
        simp only [firstCallOk, hfind, hgen] at h
        exact absurd h (by decide)
      | ok u =>
        simp only [hgen]
        rcases applyGarmentSeqAux_history genT w rest
            ({ s with
              outfitHistory := layers ++ [{ garment := some gi, poseImages := [(POSE0, u)] }],
              currentOutfitIndex :=
                (layers ++ [({ garment := some gi, poseImages := [(POSE0, u)] } : OutfitLayer)]).length - 1 } : AppState)
            u (layers ++ [{ garment := some gi, poseImages := [(POSE0, u)] }])
          with ⟨h1, h2⟩ | ⟨built, hb, h1, h2, h3⟩
        · refine ⟨[{ garment := some gi, poseImages := [(POSE0, u)] }],
            by simp, by rw [h1], by rw [h2], ?_⟩
          intro l hl
          simp only [List.mem_singleton] at hl
          subst hl
          simp
        · refine ⟨[{ garment := some gi, poseImages := [(POSE0, u)] }] ++ built,
            by simp, by rw [h1, List.append_assoc], by rw [h2, List.append_assoc], ?_⟩
          intro l hl
          rcases List.mem_append.1 hl with hl | hl
          · simp only [List.mem_singleton] at hl
            subst hl
            simp
          · exact h3 l hl

/-! ### Claim C10: replay replaces the history on its first success -/

/-- A list whose head is known is `[that head]` after `take 1`. -/
theorem take_one_of_head (l : List OutfitLayer) (a : OutfitLayer)
    (h : l.head? = some a) : l.take 1 = [a] := by
  cases l with
  | nil => simp at h
  | cons x t => simp at h; subst h; rfl

/-- C10: when the replay's first issued generation call succeeds,
ApplySavedOutfit replaces the whole history with the root layer
followed only by freshly built single-pose garment layers (every
pre-existing non-root layer, redo buffer included, is gone); when no
generation step succeeds (empty list, every id unresolved, missing
base, or a failing first call) the history array is untouched and only
the position is reset to 0. -/
theorem applySavedOutfit_replaces_on_first_success
    (genT : String → String → Except String String)
    (s : AppState) (o : SavedOutfit)
    (hbusy : s.isLoading = false) :
    (replayFirstCallOk genT s o.garmentIds = true →
      ∃ built, built ≠ [] ∧
        (handleApplySavedOutfit genT s o).1.outfitHistory =
          s.outfitHistory.take 1 ++ built ∧
        (handleApplySavedOutfit genT s o).1.currentOutfitIndex = built.length ∧
        ∀ l ∈ built, l.garment.isSome ∧ l.poseImages.length = 1) ∧
    (replayFirstCallOk genT s o.garmentIds = false →
      (handleApplySavedOutfit genT s o).1.outfitHistory = s.outfitHistory ∧
      (handleApplySavedOutfit genT s o).1.currentOutfitIndex = 0) := by
  constructor
  · intro h
    cases hroot : s.outfitHistory.head? with
    | none =>
      simp only [replayFirstCallOk, hroot] at h
      exact absurd h (by decide)
    | some root =>
      cases hlook : List.lookup POSE0 root.poseImages with
      | none =>
        simp only [replayFirstCallOk, hroot, hlook] at h
        exact absurd h (by decide)
      | some base =>
        simp only [replayFirstCallOk, hroot, hlook] at h
        simp only [handleApplySavedOutfit, hbusy, Bool.false_eq_true, if_false,
          applyGarmentSequence, hroot, hlook]
        rcases applyGarmentSeqAux_firstSuccess genT s.wardrobe o.garmentIds
            ({ s with
                error := none, isLoading := true,
                currentOutfitIndex := 0, currentPoseIndex := 0 } : AppState)
            base [root] h with ⟨built, hb, h1, h2, h3⟩
        refine ⟨built, hb, ?_, ?_, h3⟩
        · rw [take_one_of_head s.outfitHistory root hroot]
          exact h1
        · rw [h2]
          simp
  · intro h
    cases hroot : s.outfitHistory.head? with
    | none =>
      simp only [handleApplySavedOutfit, hbusy, Bool.false_eq_true, if_false,
        applyGarmentSequence, hroot]
      exact ⟨by trivial, by trivial⟩
    | some root =>
      cases hlook : List.lookup POSE0 root.poseImages with
      | none =>
        simp only [handleApplySavedOutfit, hbusy, Bool.false_eq_true, if_false,
          applyGarmentSequence, hroot, hlook]
        exact ⟨by trivial, by trivial⟩
      | some base =>
        simp only [replayFirstCallOk, hroot, hlook] at h
        simp only [handleApplySavedOutfit, hbusy, Bool.false_eq_true, if_false,
          applyGarmentSequence, hroot, hlook]
        rcases applyGarmentSeqAux_noSuccess genT s.wardrobe o.garmentIds
            ({ s with
                error := none, isLoading := true,
                currentOutfitIndex := 0, currentPoseIndex := 0 } : AppState)
            base [root] h with ⟨h1, h2⟩
        exact ⟨h1, h2⟩

/-- Witness for C10: replaying outfit ["a"] over `sRedo` (which has a
redo-buffer layer) has a succeeding first call, so the theorem yields
the replaced-history conclusion there. -/
theorem applySavedOutfit_replaces_on_first_success_witness :
    replayFirstCallOk genConcat sRedo oA.garmentIds = true ∧
    ∃ built, built ≠ [] ∧
      (handleApplySavedOutfit genConcat sRedo oA).1.outfitHistory =
        sRedo.outfitHistory.take 1 ++ built ∧
      (handleApplySavedOutfit genConcat sRedo oA).1.currentOutfitIndex =
        built.length ∧
      ∀ l ∈ built, l.garment.isSome ∧ l.poseImages.length = 1 :=
  ⟨by decide,
   (applySavedOutfit_replaces_on_first_success genConcat sRedo oA rfl).1 (by decide)⟩

/-! ### Claim C3: the root-layer invariant -/

/-- The history of a garment-select step is either unchanged or a
truncation of the stack at the position followed by one new layer. -/
theorem handleGarmentSelect_history
    (genT : String → String → Except String String)
    (s : AppState) (g : WardrobeItem) :
    (handleGarmentSelect genT s g).1.outfitHistory = s.outfitHistory ∨
    ∃ L : OutfitLayer,
      (handleGarmentSelect genT s g).1.outfitHistory =
        s.outfitHistory.take (s.currentOutfitIndex + 1) ++ [L] := by
  unfold handleGarmentSelect garmentGenerate
  split
  · exact Or.inl rfl
  · split
    · exact Or.inl rfl
    · split
      · split
        · exact Or.inl rfl
        · split
          · exact Or.inr ⟨_, rfl⟩
          · exact Or.inl rfl
      · split
        · exact Or.inr ⟨_, rfl⟩
        · exact Or.inl rfl

/-- The history of a pose-select step is either unchanged or the
current layer with one pose entry appended, in place. -/
theorem handlePoseSelect_history
    (genP : String → String → Except String String)
    (s : AppState) (n : Nat) :
    (handlePoseSelect genP s n).1.outfitHistory = s.outfitHistory ∨
    ∃ cl p u, s.outfitHistory[s.currentOutfitIndex]? = some cl ∧
      (handlePoseSelect genP s n).1.outfitHistory =
        s.outfitHistory.set s.currentOutfitIndex
          { garment := cl.garment, poseImages := cl.poseImages ++ [(p, u)] } := by
  unfold handlePoseSelect
  split
  · exact Or.inl rfl
  · split
    · exact Or.inl rfl
    · next p hp =>
      split
      · exact Or.inl rfl
      · next cl hcl =>
        split
        · exact Or.inl rfl
        · split
          · exact Or.inl rfl
          · next rep hrep =>
            split
            · next u hu => exact Or.inr ⟨cl, p, u, hcl, rfl⟩
            · exact Or.inl rfl

/-- Initialization establishes the root invariant. -/
theorem rootOK_handleModelFinalized (base : String) (s : AppState) :
    RootOK base (handleModelFinalized base s) :=
  ⟨{ garment := none, poseImages := [(POSE0, base)] }, [], rfl, rfl, rfl⟩

/-- AddGarment preserves the root invariant. -/
theorem rootOK_handleGarmentSelect
    (genT : String → String → Except String String)
    (base : String) (s : AppState) (g : WardrobeItem)
    (h : RootOK base s) :
    RootOK base (handleGarmentSelect genT s g).1 := by
  obtain ⟨l, rest, hhead, hg, hp⟩ := h
  rcases handleGarmentSelect_history genT s g with heq | ⟨L, heq⟩
  · exact ⟨l, rest, heq ▸ hhead, hg, hp⟩
  · cases hh : s.outfitHistory with
    | nil => rw [hh] at hhead; simp at hhead
    | cons x t =>
      rw [hh] at hhead
      simp only [List.head?_cons, Option.some.injEq] at hhead
      subst hhead
      refine ⟨x, rest, ?_, hg, hp⟩
      rw [heq, hh, List.take_succ_cons]
      simp

/-- RemoveLastGarment preserves the root invariant. -/
theorem rootOK_handleRemoveLastGarment
    (base : String) (s : AppState) (h : RootOK base s) :
    RootOK base (handleRemoveLastGarment s) := by
  obtain ⟨l, rest, hhead, hg, hp⟩ := h
  unfold handleRemoveLastGarment
  split
  · exact ⟨l, rest, hhead, hg, hp⟩
  · exact ⟨l, rest, hhead, hg, hp⟩

/-- SelectPose preserves the root invariant: it can grow the root's
cache (when the position is 0) but only by appending after the
first-inserted default entry. -/
theorem rootOK_handlePoseSelect
    (genP : String → String → Except String String)
    (base : String) (s : AppState) (n : Nat)
    (h : RootOK base s) :
    RootOK base (handlePoseSelect genP s n).1 := by
  obtain ⟨l, rest, hhead, hg, hp⟩ := h
  rcases handlePoseSelect_history genP s n with heq | ⟨cl, p, u, hcl, heq⟩
  · exact ⟨l, rest, heq ▸ hhead, hg, hp⟩
  · cases hh : s.outfitHistory with
    | nil => rw [hh] at hhead; simp at hhead
    | cons x t =>
      rw [hh] at hhead
      simp only [List.head?_cons, Option.some.injEq] at hhead
      subst hhead
      cases hidx : s.currentOutfitIndex with
      | zero =>
        rw [hh, hidx] at hcl
        simp only [List.getElem?_cons_zero, Option.some.injEq] at hcl
        subst hcl
        refine ⟨{ garment := x.garment, poseImages := x.poseImages ++ [(p, u)] },
                rest ++ [(p, u)], ?_, hg, ?_⟩
        · rw [heq, hh, hidx]
          simp
        · rw [hp]
          rfl
      | succ j =>
        refine ⟨x, rest, ?_, hg, hp⟩
        rw [heq, hh, hidx]
        simp

/-- ApplySavedOutfit preserves the root invariant: the replay reuses
the existing root layer unchanged. -/
theorem rootOK_handleApplySavedOutfit
    (genT : String → String → Except String String)
    (base : String) (s : AppState) (o : SavedOutfit)
    (h : RootOK base s) :
    RootOK base (handleApplySavedOutfit genT s o).1 := by
  obtain ⟨l, rest, hhead, hg, hp⟩ := h
  cases hl : s.isLoading with
  | true =>
    unfold handleApplySavedOutfit
    rw [hl]
    simpa using ⟨l, rest, hhead, hg, hp⟩
  | false =>
    simp only [handleApplySavedOutfit, hl, Bool.false_eq_true, if_false,
      applyGarmentSequence, hhead]
    cases hlook : List.lookup POSE0 l.poseImages with
    | none =>
      simp only [hlook]
      exact ⟨l, rest, hhead, hg, hp⟩
    | some b =>
      simp only [hlook]
      rcases applyGarmentSeqAux_history genT s.wardrobe o.garmentIds
          ({ s with
              error := none, isLoading := true,
              currentOutfitIndex := 0, currentPoseIndex := 0 } : AppState)
          b [l] with ⟨h1, h2⟩ | ⟨built, hb, h1, h2, h3⟩
      · refine ⟨l, rest, ?_, hg, hp⟩
        rw [h1]
        exact hhead
      · refine ⟨l, rest, ?_, hg, hp⟩
        rw [h1]
        simp

/-- Every engine operation preserves the root invariant. -/
theorem rootOK_step
    (genT genP : String → String → Except String String)
    (base : String) (s : AppState) (op : Op)
    (h : RootOK base s) : RootOK base (step genT genP s op) := by
  cases op with
  | addGarment g => exact rootOK_handleGarmentSelect genT base s g h
  | removeLast => exact rootOK_handleRemoveLastGarment base s h
  | selectPose n => exact rootOK_handlePoseSelect genP base s n h
  | applyOutfit o => exact rootOK_handleApplySavedOutfit genT base s o h

/-- Folding any operation list preserves the root invariant. -/
theorem rootOK_foldl
    (genT genP : String → String → Except String String)
    (base : String) (ops : List Op) :
    ∀ s : AppState, RootOK base s →
      RootOK base (ops.foldl (step genT genP) s) := by
  induction ops with
  | nil => intro s h; exact h
  | cons op rest ih =>
    intro s h
    exact ih (step genT genP s op) (rootOK_step genT genP base s op h)

/-- C3 (amended): after Initialize(base), for every operation sequence
the layer at position 0 exists, has no garment, and its pose cache's
first-inserted (representative) entry maps the default pose to the
model's base image — in particular the default pose always resolves to
the base image.  The cache is not always a single entry: SelectPose at
position 0 appends further pose entries to it. -/
theorem run_root_invariant
    (genT genP : String → String → Except String String)
    (base : String) (s0 : AppState) (ops : List Op) :
    ∃ l rest, (run genT genP base s0 ops).outfitHistory.head? = some l ∧
      l.garment = none ∧ l.poseImages = (POSE0, base) :: rest ∧
      List.lookup POSE0 l.poseImages = some base := by
  obtain ⟨l, rest, hhead, hg, hp⟩ :=
    rootOK_foldl genT genP base ops (handleModelFinalized base s0)
      (rootOK_handleModelFinalized base s0)
  refine ⟨l, rest, hhead, hg, hp, ?_⟩
  rw [hp]
  simp [List.lookup]

/-- C3 counterexample: after Initialize("M0"), the single operation
SelectPose 1 (with a succeeding oracle) leaves the root layer with two
pose-cache entries, refuting "its Pose Cache contains exactly one
entry"; the garment is still absent. -/
theorem root_cache_two_entries_cex :
    ((run genConcat genConcat "M0" initialState [Op.selectPose 1]).outfitHistory.head?.map
      (fun l => l.poseImages.length)) = some 2 ∧
    ((run genConcat genConcat "M0" initialState [Op.selectPose 1]).outfitHistory.head?.map
      (fun l => l.garment)) = some none := by
  decide

/-! ### Claim C6: branch overwrite -/

/-- C6: from position i with a different-garment layer at i+1 (an
undone redo buffer), a successful AddGarment(H) truncates the stack to
positions 0..i, appends the new layer for H at position i+1, and
yields length i+2 with the position advanced to i+1 — every former
layer beyond i+1 is gone. -/
theorem addGarment_branch_overwrite
    (genT : String → String → Except String String)
    (s : AppState) (H : WardrobeItem) (nextLayer : OutfitLayer)
    (disp r : String)
    (hbusy : s.isLoading = false)
    (hnext : s.outfitHistory[s.currentOutfitIndex + 1]? = some nextLayer)
    (hne : ¬ nextLayer.garment.map WardrobeItem.id = some H.id)
    (hdisp : displayImageUrl s = some disp)
    (hgen : genT disp H.id = Except.ok r) :
    (handleGarmentSelect genT s H).1.outfitHistory =
      s.outfitHistory.take (s.currentOutfitIndex + 1) ++
        [{ garment := some H, poseImages := [(POSE0, r)] }] ∧
    (handleGarmentSelect genT s H).1.outfitHistory.length =
      s.currentOutfitIndex + 2 ∧
    (handleGarmentSelect genT s H).1.currentOutfitIndex =
      s.currentOutfitIndex + 1 := by
  have hlen : s.currentOutfitIndex + 1 < s.outfitHistory.length := by
    by_contra hcon
    rw [List.getElem?_eq_none_iff.2 (by omega)] at hnext
    exact Option.noConfusion hnext
  have hred : (handleGarmentSelect genT s H).1 =
      { s with
          error := none,
          outfitHistory :=
            s.outfitHistory.take (s.currentOutfitIndex + 1) ++
              [{ garment := some H, poseImages := [(POSE0, r)] }],
          currentOutfitIndex := s.currentOutfitIndex + 1,
          currentPoseIndex := 0,
          wardrobe :=
            if (s.wardrobe.find? (fun item => item.id == H.id)).isSome
            then s.wardrobe else s.wardrobe ++ [H] } := by
    simp only [handleGarmentSelect, hdisp, hbusy, Bool.false_eq_true, if_false,
      hnext, hne, garmentGenerate, hgen]
  refine ⟨by rw [hred], ?_, by rw [hred]⟩
  rw [hred]
  simp only [List.length_append, List.length_take]
  simp
  omega

/-- Witness for C6 at `sRedo` (position 0, garment "a" in the redo
buffer) overwriting with garment "b". -/
theorem addGarment_branch_overwrite_witness :
    (handleGarmentSelect genConcat sRedo itemB).1.outfitHistory =
      sRedo.outfitHistory.take 1 ++
        [{ garment := some itemB, poseImages := [(POSE0, "M0|b")] }] ∧
    (handleGarmentSelect genConcat sRedo itemB).1.outfitHistory.length = 2 ∧
    (handleGarmentSelect genConcat sRedo itemB).1.currentOutfitIndex = 1 :=
  addGarment_branch_overwrite genConcat sRedo itemB
    { garment := some itemA, poseImages := [(POSE0, "M1")] } "M0" "M0|b"
    rfl (by decide) (by decide) (by decide) rfl

/-! ### Claim C7: replay determinism and base chaining -/

/-- C7: replaying a saved outfit [idA, idB] from a fresh root layer
(regardless of any redo buffer behind it) with all calls succeeding
produces exactly the 3-layer history [root, A-applied, B-applied-on-A]
at position 2, and the generation calls issued are exactly two fresh
ones, the second based on the first's result image (not the root
image) — the redo buffer is never consulted. -/
theorem replay_two_garments_fresh_calls
    (genT : String → String → Except String String)
    (s : AppState) (o : SavedOutfit) (m idA idB r1 r2 : String)
    (gA gB : WardrobeItem)
    (hbusy : s.isLoading = false)
    (hroot : s.outfitHistory.head? =
      some { garment := none, poseImages := [(POSE0, m)] })
    (hids : o.garmentIds = [idA, idB])
    (hA : s.wardrobe.find? (fun g => g.id == idA) = some gA)
    (hB : s.wardrobe.find? (fun g => g.id == idB) = some gB)
    (hgA : genT m gA.id = Except.ok r1)
    (hgB : genT r1 gB.id = Except.ok r2) :
    handleApplySavedOutfit genT s o =
      ({ s with
          error := none, isLoading := false,
          outfitHistory :=
            [{ garment := none, poseImages := [(POSE0, m)] },
             { garment := some gA, poseImages := [(POSE0, r1)] },
             { garment := some gB, poseImages := [(POSE0, r2)] }],
          currentOutfitIndex := 2, currentPoseIndex := 0 },
       [(m, gA.id), (r1, gB.id)]) := by
  simp only [handleApplySavedOutfit, hbusy, Bool.false_eq_true, if_false,
    applyGarmentSequence, hroot, hids]
  simp only [List.lookup, beq_self_eq_true, if_true]
  simp only [applyGarmentSeqAux, hA, hgA, hB, hgB]
  simp

/-- Witness for C7: replaying outfit ["a", "b"] over the fresh-root
state, with the concatenating oracle; B's call is based on "M0|a",
A's result. -/
theorem replay_two_garments_fresh_calls_witness :
    handleApplySavedOutfit genConcat sRootOnly oAB =
      ({ sRootOnly with
          error := none, isLoading := false,
          outfitHistory :=
            [{ garment := none, poseImages := [(POSE0, "M0")] },
             { garment := some itemA, poseImages := [(POSE0, "M0|a")] },
             { garment := some itemB, poseImages := [(POSE0, "M0|a|b")] }],
          currentOutfitIndex := 2, currentPoseIndex := 0 },
       [("M0", "a"), ("M0|a", "b")]) :=
  replay_two_garments_fresh_calls genConcat sRootOnly oAB
    "M0" "a" "b" "M0|a" "M0|a|b" itemA itemB
    rfl (by decide) (by decide) (by decide) (by decide) rfl rfl

/-! ### Claim C5: idempotence of redo -/

/-- Under well-formedness (valid position, nonempty pose caches) the
displayed image exists. -/
theorem displayImageUrl_isSome (s : AppState)
    (hidx : s.currentOutfitIndex < s.outfitHistory.length)
    (hcache : ∀ l ∈ s.outfitHistory, l.poseImages ≠ []) :
    ∃ d, displayImageUrl s = some d := by
  unfold displayImageUrl
  rw [if_neg (by omega)]
  rw [List.getElem?_eq_getElem hidx]
  have hmem : s.outfitHistory[s.currentOutfitIndex] ∈ s.outfitHistory :=
    List.getElem_mem hidx
  obtain ⟨e, t, het⟩ :
      ∃ e t, (s.outfitHistory[s.currentOutfitIndex]).poseImages = e :: t := by
    cases h : (s.outfitHistory[s.currentOutfitIndex]).poseImages with
    | nil => exact absurd h (hcache _ hmem)
    | cons e t => exact ⟨e, t, rfl⟩
  cases hm : POSE_INSTRUCTIONS[s.currentPoseIndex]? with
  | none => exact ⟨e.2, by simp [hm, het, Option.orElse]⟩
  | some p =>
    cases hlk : List.lookup p (s.outfitHistory[s.currentOutfitIndex]).poseImages with
    | some v => exact ⟨v, by simp [hm, hlk, Option.orElse]⟩
    | none =>
      refine ⟨e.2, ?_⟩
      simp only [hm]
      rw [hlk]
      simp [het, Option.orElse]

/-- Reading just past a truncation point of an extended stack yields
the newly appended element. -/
theorem getElem?_take_append_self (l : List OutfitLayer) (x : OutfitLayer)
    (n : Nat) (h : n ≤ l.length) :
    (l.take n ++ [x])[n]? = some x := by
  have hlen : (l.take n).length = n := by
    simp [List.length_take]
    omega
  rw [List.getElem?_append_right (by omega), hlen]
  simp

/-- The redo-hit branch of AddGarment in equation form. -/
theorem handleGarmentSelect_redo_eq
    (genT : String → String → Except String String)
    (s : AppState) (g : WardrobeItem) (nl : OutfitLayer) (d : String)
    (hd : displayImageUrl s = some d)
    (hbusy : s.isLoading = false)
    (hnext : s.outfitHistory[s.currentOutfitIndex + 1]? = some nl)
    (hmatch : nl.garment.map WardrobeItem.id = some g.id) :
    handleGarmentSelect genT s g =
      ({ s with currentOutfitIndex := s.currentOutfitIndex + 1,
                currentPoseIndex := 0 }, []) := by
  simp only [handleGarmentSelect, hd, hbusy, Bool.false_eq_true, if_false,
    hnext, hmatch, if_true]

/-- The successful generation branch of AddGarment in equation form
(reached when there is no next layer or its garment id differs). -/
theorem handleGarmentSelect_generate_eq
    (genT : String → String → Except String String)
    (s : AppState) (g : WardrobeItem) (d u : String)
    (hd : displayImageUrl s = some d)
    (hbusy : s.isLoading = false)
    (hu : genT d g.id = Except.ok u)
    (hbranch : ¬ ((s.outfitHistory[s.currentOutfitIndex + 1]?.bind
        OutfitLayer.garment).map WardrobeItem.id = some g.id)) :
    handleGarmentSelect genT s g =
      ({ s with
          error := none,
          outfitHistory :=
            s.outfitHistory.take (s.currentOutfitIndex + 1) ++
              [{ garment := some g, poseImages := [(POSE0, u)] }],
          currentOutfitIndex := s.currentOutfitIndex + 1,
          currentPoseIndex := 0,
          wardrobe :=
            if (s.wardrobe.find? (fun item => item.id == g.id)).isSome
            then s.wardrobe else s.wardrobe ++ [g] },
       [(d, g.id)]) := by
  cases hnext : s.outfitHistory[s.currentOutfitIndex + 1]? with
  | none =>
    simp only [handleGarmentSelect, hd, hbusy, Bool.false_eq_true, if_false,
      hnext, garmentGenerate, hu]
  | some nl =>
    rw [hnext] at hbranch
    simp only [Option.bind] at hbranch
    simp only [handleGarmentSelect, hd, hbusy, Bool.false_eq_true, if_false,
      hnext, hbranch, if_false, garmentGenerate, hu]

/-- C5: from a well-formed non-busy state, AddGarment(G) (succeeding),
then RemoveLastGarment, then AddGarment(G) with the same id issues no
generation call the second time, and the resulting state equals the
state immediately after the first AddGarment(G). -/
theorem addGarment_undo_redo_idempotent
    (genT : String → String → Except String String)
    (s : AppState) (G : WardrobeItem)
    (hidx : s.currentOutfitIndex < s.outfitHistory.length)
    (hcache : ∀ l ∈ s.outfitHistory, l.poseImages ≠ [])
    (hbusy : s.isLoading = false)
    (hok : ∀ b, ∃ u, genT b G.id = Except.ok u) :
    (handleGarmentSelect genT
        (handleRemoveLastGarment (handleGarmentSelect genT s G).1) G).2 = [] ∧
    (handleGarmentSelect genT
        (handleRemoveLastGarment (handleGarmentSelect genT s G).1) G).1 =
      (handleGarmentSelect genT s G).1 := by
  obtain ⟨d, hd⟩ := displayImageUrl_isSome s hidx hcache
  obtain ⟨u, hu⟩ := hok d
  by_cases hredo : (s.outfitHistory[s.currentOutfitIndex + 1]?.bind
      OutfitLayer.garment).map WardrobeItem.id = some G.id
  · cases hnext : s.outfitHistory[s.currentOutfitIndex + 1]? with
    | none =>
      rw [hnext] at hredo
      simp [Option.bind] at hredo
    | some nl =>
      rw [hnext] at hredo
      simp only [Option.bind] at hredo
      rw [handleGarmentSelect_redo_eq genT s G nl d hd hbusy hnext hredo]
      have h2 : handleRemoveLastGarment
          ({ s with currentOutfitIndex := s.currentOutfitIndex + 1,
                    currentPoseIndex := 0 } : AppState) =
          { s with currentPoseIndex := 0 } := by
        unfold handleRemoveLastGarment
        simp
      rw [h2]
      obtain ⟨d2, hd2⟩ := displayImageUrl_isSome
        ({ s with currentPoseIndex := 0 } : AppState) hidx hcache
      rw [handleGarmentSelect_redo_eq genT
        ({ s with currentPoseIndex := 0 } : AppState) G nl d2 hd2 hbusy hnext hredo]
      exact ⟨rfl, rfl⟩
  · rw [handleGarmentSelect_generate_eq genT s G d u hd hbusy hu hredo]
    set L : OutfitLayer := { garment := some G, poseImages := [(POSE0, u)] } with hL
    set H2 : List OutfitLayer :=
      s.outfitHistory.take (s.currentOutfitIndex + 1) ++ [L] with hH2
    set W2 : List WardrobeItem :=
      (if (s.wardrobe.find? (fun item => item.id == G.id)).isSome
       then s.wardrobe else s.wardrobe ++ [G]) with hW2
    have h2 : handleRemoveLastGarment
        ({ s with
            error := none, outfitHistory := H2,
            currentOutfitIndex := s.currentOutfitIndex + 1,
            currentPoseIndex := 0, wardrobe := W2 } : AppState) =
        { s with
            error := none, outfitHistory := H2,
            currentOutfitIndex := s.currentOutfitIndex,
            currentPoseIndex := 0, wardrobe := W2 } := by
      unfold handleRemoveLastGarment
      simp
    rw [h2]
    have hlen2 : H2.length = s.currentOutfitIndex + 2 := by
      rw [hH2]
      simp only [List.length_append, List.length_take, List.length_singleton]
      omega
    have hidx2 : s.currentOutfitIndex < H2.length := by omega
    have hcache2 : ∀ l ∈ H2, l.poseImages ≠ [] := by
      intro l hl
      rw [hH2] at hl
      rcases List.mem_append.1 hl with hl | hl
      · exact hcache l (List.take_subset _ _ hl)
      · simp only [List.mem_singleton] at hl
        subst hl
        simp [hL]
    obtain ⟨d2, hd2⟩ := displayImageUrl_isSome
      ({ s with
          error := none, outfitHistory := H2,
          currentOutfitIndex := s.currentOutfitIndex,
          currentPoseIndex := 0, wardrobe := W2 } : AppState) hidx2 hcache2
    have hnext2 : H2[s.currentOutfitIndex + 1]? = some L := by
      rw [hH2]
      exact getElem?_take_append_self _ _ _ (by omega)
    have hmatch2 : L.garment.map WardrobeItem.id = some G.id := by
      simp [hL]
    rw [handleGarmentSelect_redo_eq genT
      ({ s with
          error := none, outfitHistory := H2,
          currentOutfitIndex := s.currentOutfitIndex,
          currentPoseIndex := 0, wardrobe := W2 } : AppState) G L d2 hd2 hbusy
      hnext2 hmatch2]
    exact ⟨rfl, rfl⟩

/-- Witness for C5 at `sRootOnly` adding garment "a" with the
concatenating oracle. -/
theorem addGarment_undo_redo_idempotent_witness :
    (handleGarmentSelect genConcat
        (handleRemoveLastGarment
          (handleGarmentSelect genConcat sRootOnly itemA).1) itemA).2 = [] ∧
    (handleGarmentSelect genConcat
        (handleRemoveLastGarment
          (handleGarmentSelect genConcat sRootOnly itemA).1) itemA).1 =
      (handleGarmentSelect genConcat sRootOnly itemA).1 :=
  addGarment_undo_redo_idempotent genConcat sRootOnly itemA (by decide)
    (by decide) rfl (fun b => ⟨b ++ "|" ++ itemA.id, rfl⟩)
